import Mathlib

/-!
Verification development for the Green Procurement Advisor server
(server/index.js). The definitions below are a shallow embedding of the
code: the scoring function, the CSV normalization step, the enrichment
step over the text-completion collaborator, the aggregation of the
analysis result, and the two HTTP routes (upload and history). External
collaborators (the token verifier, the Firestore storage engine, the
OpenAI completion client) are modelled as explicit parameters.
-/

namespace GreenTech

/-- JS String.prototype.toLowerCase, applied character by character. -/
def toLowerStr (s : String) : String := ⟨s.data.map Char.toLower⟩

/-- Test whether the second character list occurs at the head of the first. -/
def charsBegins : List Char → List Char → Bool
  | _, [] => true
  | [], _ :: _ => false
  | a :: as, b :: bs => a == b && charsBegins as bs

/-- Test whether the character list sub occurs contiguously inside s. -/
def charsHas (sub : List Char) : List Char → Bool
  | [] => sub.isEmpty
  | c :: rest => charsBegins (c :: rest) sub || charsHas sub rest

/-- JS s.includes(sub): substring containment at any position. -/
def strIncludes (s sub : String) : Bool := charsHas sub.data s.data

/-- One parsed CSV row, as csv-parser delivers it: a mapping from
lower-cased column name to the cell value (mapHeaders lower-cases every
header before the row object is built). -/
abbrev Item := List (String × String)

/-- JS property read data[key] on a row object. -/
def getAttr (it : Item) (key : String) : Option String :=
  (it.find? (fun p => p.1 == key)).map (fun p => p.2)

/-- Resolution of item.product together with its JS truthiness test:
the guard (!item || !item.product) treats an absent row, an absent
product key and an empty-string cell alike. -/
def productText (item : Option Item) : Option String :=
  match item with
  | none => none
  | some it =>
    match getAttr it "product" with
    | none => none
    | some p => if p = "" then none else some p

/-- calculateGreenScore from server/index.js: baseline 50, additive
keyword rules on the lower-cased product name, clamped to [0, 100];
0 unconditionally when the row or its product value is missing. -/
def calculateGreenScore (item : Option Item) : Int :=
  match productText item with
  | none => 0
  | some p =>
    let productName := toLowerStr p
    let score : Int := 50
    let score := if strIncludes productName "recycled" then score + 20 else score
    let score := if strIncludes productName "compostable" then score + 20 else score
    let score := if strIncludes productName "organic" then score + 15 else score
    let score := if strIncludes productName "reusable" then score + 15 else score
    let score := if strIncludes productName "led" then score + 10 else score
    let score := if strIncludes productName "local" then score + 10 else score
    let score := if strIncludes productName "plastic" && !(strIncludes productName "reusable") then score - 30 else score
    let score := if strIncludes productName "disposable" then score - 25 else score
    let score := if strIncludes productName "single-use" then score - 30 else score
    max 0 (min 100 score)

/-- A row after scoring (and possibly enrichment): the spread
object with the original columns plus greenScore and, for enriched
low scorers, the suggestion field. -/
structure ScoredItem where
  attrs : Item
  greenScore : Int
  suggestion : Option String
  deriving DecidableEq, Repr

/-- The uploaded CSV once decoded into lines of cells: the header line
followed by the data lines, plus the original file name. -/
structure CsvFile where
  name : String
  lines : List (List String)
  deriving DecidableEq, Repr

/-- csv-parser with the mapHeaders lower-casing option: each data line
is zipped with the lower-cased header names; an empty upload (no header
line) yields no rows. -/
def parseCsv (lines : List (List String)) : List Item :=
  match lines with
  | [] => []
  | header :: rows => rows.map (fun cells => List.zip (header.map toLowerStr) cells)

/-- The per-row scoring pass of the data handler: each parsed row is
spread into a result record carrying its greenScore; no suggestion is
attached at this stage. -/
def scoreRows (items : List Item) : List ScoredItem :=
  items.map (fun it => { attrs := it, greenScore := calculateGreenScore (some it), suggestion := none })

/-- The product value of a scored row, as read for the completion
prompts. -/
def productOf (s : ScoredItem) : Option String := getAttr s.attrs "product"

/-- The external text-completion collaborator (the OpenAI client).
Each field gives the trimmed completion text for the corresponding
prompt, or none when that request rejects. -/
structure Oracle where
  summary : List (Option String) → Option String
  alternative : Option String → Option String

/-- The alternatives step: one completion request per row with
greenScore strictly below 40, run through Promise.all. Promise.all
rejects as soon as any single request rejects, so the whole step
yields none when at least one low-scoring row fails; when every
request fulfills, each low-scoring row gets its suggestion set in
place and the other rows are untouched. -/
def attachSuggestions (o : Oracle) (rows : List ScoredItem) : Option (List ScoredItem) :=
  if (rows.filter (fun s => decide (s.greenScore < 40))).all
      (fun s => (o.alternative (productOf s)).isSome) then
    some (rows.map (fun s =>
      if s.greenScore < 40 then { s with suggestion := o.alternative (productOf s) } else s))
  else
    none

/-- The accumulation results.reduce((acc, item) => acc + item.greenScore, 0). -/
def totalScoreOf (rows : List ScoredItem) : Int :=
  (rows.map (fun s => s.greenScore)).sum

/-- The aggregation of the average score:
results.length > 0 ? Math.round(totalScore / results.length) : 0. -/
def averageScoreOf (rows : List ScoredItem) : Int :=
  if 0 < rows.length then
    round ((totalScoreOf rows : ℚ) / (rows.length : ℚ))
  else 0

/-- The persisted and returned analysis record. -/
structure AnalysisResult where
  fileName : String
  averageScore : Int
  summary : String
  items : List ScoredItem
  deriving DecidableEq, Repr

/-- The request state reaching the upload route: currentUser is the
decoded uid when a bearer token verified, and none when the header was
absent or verification failed (the middleware swallows the failure and
leaves the field unset); file is the decoded multipart upload, none
when no file field was sent. -/
structure UploadRequest where
  currentUser : Option String
  file : Option CsvFile

/-- The observable outcomes of POST /api/upload: 401, 400, 500, or 200
with the analysis payload. -/
inductive UploadResponse
  | unauthorized
  | badRequest
  | serverError
  | ok (result : AnalysisResult)
  deriving DecidableEq, Repr

/-- POST /api/upload: authentication check, file presence check, CSV
parse and per-row scoring, summary completion, alternatives batch,
aggregation, then the Firestore write. The second component counts
storage writes performed. -/
def handleUpload (o : Oracle) (req : UploadRequest) : UploadResponse × Nat :=
  match req.currentUser with
  | none => (UploadResponse.unauthorized, 0)
  | some _ =>
    match req.file with
    | none => (UploadResponse.badRequest, 0)
    | some f =>
      let results := scoreRows (parseCsv f.lines)
      match o.summary (results.map productOf) with
      | none => (UploadResponse.serverError, 0)
      | some s =>
        match attachSuggestions o results with
        | none => (UploadResponse.serverError, 0)
        | some enriched =>
          (UploadResponse.ok
            { fileName := f.name
              averageScore := averageScoreOf enriched
              summary := s
              items := enriched }, 1)

/-- One document of the analyses collection. -/
structure StoredRecord where
  userId : String
  createdAt : Nat
  result : AnalysisResult
  deriving DecidableEq, Repr

/-- Newest-first comparison used by the history query. -/
def newerFirst (a b : StoredRecord) : Prop := b.createdAt ≤ a.createdAt

instance : DecidableRel newerFirst := fun a b => Nat.decLe b.createdAt a.createdAt

instance : IsTotal StoredRecord newerFirst := ⟨fun a b => Nat.le_total b.createdAt a.createdAt⟩

instance : IsTrans StoredRecord newerFirst := ⟨fun _ _ _ hab hbc => le_trans hbc hab⟩

/-- The storage collaborator executing the history query built by the
route: where userId == uid, orderBy createdAt descending, over the
analyses collection held as a list. -/
def queryByOwner (db : List StoredRecord) (uid : String) : List StoredRecord :=
  List.insertionSort newerFirst (db.filter (fun r => r.userId == uid))

/-- The observable outcomes of GET /api/history. -/
inductive HistoryResponse
  | unauthorized
  | ok (records : List StoredRecord)
  deriving DecidableEq, Repr

/-- GET /api/history: authentication check, then one storage read
returning the documents of the caller, newest first; an empty snapshot
answers with the empty list. The second component counts storage
reads performed. -/
def handleHistory (db : List StoredRecord) (currentUser : Option String) : HistoryResponse × Nat :=
  match currentUser with
  | none => (HistoryResponse.unauthorized, 0)
  | some uid => (HistoryResponse.ok (queryByOwner db uid), 1)

/-! Concrete scenario data used by the claim theorems below. -/

/-- A completion collaborator whose every request fulfills. -/
def happyOracle : Oracle :=
  { summary := fun _ => some "The purchases carry a mixed environmental impact."
    alternative := fun _ => some "Choose a reusable steel cup instead." }

/-- The 3-row CSV of the end-to-end scenario from the specification. -/
def e2eCsv : CsvFile :=
  { name := "data.csv"
    lines := [["product", "quantity", "price"],
              ["Recycled A4 Paper", "100", "25.00"],
              ["Disposable Plastic Cups", "200", "15.00"],
              ["LED Light Bulbs", "50", "120.00"]] }

/-- The end-to-end scenario request: authenticated, file present. -/
def e2eRequest : UploadRequest := { currentUser := some "user1", file := some e2eCsv }

/-- The items the pipeline produces for the end-to-end scenario. Note
that the first row scores 80, not 70: the lower-cased product name
contains the keyword substring led inside the word recycled, so both
the +20 and the +10 rule fire. -/
def e2eItems : List ScoredItem :=
  [{ attrs := [("product", "Recycled A4 Paper"), ("quantity", "100"), ("price", "25.00")]
     greenScore := 80, suggestion := none },
   { attrs := [("product", "Disposable Plastic Cups"), ("quantity", "200"), ("price", "15.00")]
     greenScore := 0, suggestion := some "Choose a reusable steel cup instead." },
   { attrs := [("product", "LED Light Bulbs"), ("quantity", "50"), ("price", "120.00")]
     greenScore := 60, suggestion := none }]

/-- The analysis record the pipeline returns for the end-to-end
scenario. -/
def e2eResult : AnalysisResult :=
  { fileName := "data.csv"
    averageScore := averageScoreOf e2eItems
    summary := "The purchases carry a mixed environmental impact."
    items := e2eItems }

/-- The LED row of the end-to-end scenario result. -/
def ledRow : ScoredItem :=
  { attrs := [("product", "LED Light Bulbs"), ("quantity", "50"), ("price", "120.00")]
    greenScore := 60, suggestion := none }

/-- A completion collaborator that rejects exactly the alternative
request for the product Disposable Plastic Cups. -/
def c2Oracle : Oracle :=
  { summary := fun _ => some "Summary of impact."
    alternative := fun p => if p = some "Disposable Plastic Cups" then none else some "A greener option." }

/-- A CSV with two low-scoring rows, used to exhibit the all-or-nothing
behavior of the alternatives batch. -/
def c2Csv : CsvFile :=
  { name := "c2.csv"
    lines := [["product"], ["Disposable Plastic Cups"], ["Single-Use Plastic Straws"]] }

/-- An authenticated request carrying the two-low-row CSV. -/
def c2Request : UploadRequest := { currentUser := some "user1", file := some c2Csv }

/-- A present but zero-byte upload: no header line, no data lines. -/
def emptyCsv : CsvFile := { name := "empty.csv", lines := [] }

/-- A stored analysis record used by the history witness. -/
def sampleResult : AnalysisResult :=
  { fileName := "old.csv", averageScore := 0, summary := "", items := [] }

/-- A one-document analyses collection owned by another user. -/
def sampleDb : List StoredRecord :=
  [{ userId := "alice", createdAt := 5, result := sampleResult }]

/-! Helper lemmas shared by the claim theorems. -/

/-- Clamping to [0, 100] lands in [0, 100]. -/
theorem clampBounds (s : ℤ) : 0 ≤ max 0 (min 100 s) ∧ max 0 (min 100 s) ≤ 100 :=
  ⟨le_max_left 0 _, max_le (by norm_num) (min_le_left 100 s)⟩

/-- Every score is either the guard value 0 or a clamped value. -/
theorem calculateGreenScore_zero_or_clamp (item : Option Item) :
    calculateGreenScore item = 0 ∨ ∃ s : ℤ, calculateGreenScore item = max 0 (min 100 s) := by
  unfold calculateGreenScore
  cases h : productText item with
  | none => exact Or.inl rfl
  | some p => exact Or.inr ⟨_, rfl⟩

/-- Evaluation rule for the average on a batch of known total and
positive length. -/
theorem averageScoreOf_concrete (rows : List ScoredItem) (t : ℤ) (n : ℕ)
    (h1 : totalScoreOf rows = t) (h2 : rows.length = n) (hn : 0 < n) :
    averageScoreOf rows = round ((t : ℚ) / (n : ℚ)) := by
  rw [averageScoreOf, if_pos (h2 ▸ hn), h1, h2]

/-- The scoring pass never attaches a suggestion. -/
theorem scoreRows_suggestion_none (items : List Item) :
    ∀ x ∈ scoreRows items, x.suggestion = none := by
  intro x hx
  obtain ⟨it, _, rfl⟩ := List.mem_map.mp hx
  rfl

/-- The alternatives batch rejects as a whole exactly when some
low-scoring row has a rejecting request. -/
theorem attachSuggestions_eq_none_iff (o : Oracle) (rows : List ScoredItem) :
    attachSuggestions o rows = none ↔
      ∃ x ∈ rows, x.greenScore < 40 ∧ o.alternative (productOf x) = none := by
  unfold attachSuggestions
  split
  next hall =>
    simp only [List.all_eq_true, List.mem_filter, decide_eq_true_eq] at hall
    constructor
    · intro hc; exact absurd hc (by simp)
    · rintro ⟨x, hx, hlt, hnone⟩
      have hs := hall x ⟨hx, hlt⟩
      rw [hnone] at hs
      simp at hs
  next hall =>
    refine ⟨fun _ => ?_, fun _ => rfl⟩
    by_contra hno
    push_neg at hno
    apply hall
    simp only [List.all_eq_true, List.mem_filter, decide_eq_true_eq]
    rintro x ⟨hx, hlt⟩
    cases hcase : o.alternative (productOf x) with
    | none => exact absurd hcase (hno x hx hlt)
    | some v => simp [hcase]

/-- When every low-scoring row has a fulfilling request, the batch
fulfills and sets each low-scoring suggestion in place. -/
theorem attachSuggestions_eq_some (o : Oracle) (rows : List ScoredItem)
    (h : ∀ x ∈ rows, x.greenScore < 40 → (o.alternative (productOf x)).isSome) :
    attachSuggestions o rows =
      some (rows.map (fun x =>
        if x.greenScore < 40 then { x with suggestion := o.alternative (productOf x) } else x)) := by
  have hcond : (rows.filter (fun s => decide (s.greenScore < 40))).all
      (fun s => (o.alternative (productOf s)).isSome) = true := by
    simp only [List.all_eq_true, List.mem_filter, decide_eq_true_eq]
    rintro x ⟨hx, hlt⟩
    exact h x hx hlt
  unfold attachSuggestions
  rw [if_pos hcond]

/-- Rows at or above the threshold pass through the alternatives batch
unchanged, so each output row at or above 40 is an input row. -/
theorem attachSuggestions_mem_high (o : Oracle) (rows E : List ScoredItem)
    (hE : attachSuggestions o rows = some E) :
    ∀ x ∈ E, 40 ≤ x.greenScore → x ∈ rows := by
  unfold attachSuggestions at hE
  split at hE
  next =>
    injection hE with hE2
    subst hE2
    intro x hx hge
    obtain ⟨y, hy, hxy⟩ := List.mem_map.mp hx
    by_cases hlt : y.greenScore < 40
    · rw [if_pos hlt] at hxy
      subst hxy
      exact absurd hge (not_le.mpr hlt)
    · rw [if_neg hlt] at hxy
      exact hxy ▸ hy
  next => exact Option.noConfusion hE

/-- Inversion of a successful upload: the request was authenticated and
carried a file, the enrichment batch fulfilled, and the response record
was assembled from the enriched rows with exactly one storage write. -/
theorem handleUpload_ok_inv (o : Oracle) (req : UploadRequest) (r : AnalysisResult) (n : ℕ)
    (h : handleUpload o req = (UploadResponse.ok r, n)) :
    ∃ f E, req.file = some f ∧
      attachSuggestions o (scoreRows (parseCsv f.lines)) = some E ∧
      r.items = E ∧ r.averageScore = averageScoreOf E ∧ r.fileName = f.name ∧ n = 1 := by
  obtain ⟨cu, file⟩ := req
  cases cu with
  | none => simp [handleUpload] at h
  | some uid =>
    cases file with
    | none => simp [handleUpload] at h
    | some f =>
      simp only [handleUpload] at h
      cases hs : o.summary ((scoreRows (parseCsv f.lines)).map productOf) with
      | none => rw [hs] at h; simp at h
      | some s =>
        rw [hs] at h
        cases ha : attachSuggestions o (scoreRows (parseCsv f.lines)) with
        | none => rw [ha] at h; simp at h
        | some E =>
          rw [ha] at h
          simp only [Prod.mk.injEq, UploadResponse.ok.injEq] at h
          obtain ⟨h1, h2⟩ := h
          refine ⟨f, E, rfl, ha, ?_, ?_, ?_, h2.symm⟩
          · rw [← h1]
          · rw [← h1]
          · rw [← h1]

/-- With a file present, the upload route never answers 400. -/
theorem handleUpload_with_file_not_badRequest (o : Oracle) (uid : String) (f : CsvFile) :
    (handleUpload o { currentUser := some uid, file := some f }).1 ≠ UploadResponse.badRequest := by
  simp only [handleUpload]
  cases hs : o.summary ((scoreRows (parseCsv f.lines)).map productOf) with
  | none => simp
  | some s =>
    cases ha : attachSuggestions o (scoreRows (parseCsv f.lines)) with
    | none => simp
    | some E => simp

/-! Claim theorems. -/

/-- C1, counterexample: the claimed value 70 for the product Recycled
Paper is wrong on the code. The lower-cased product name recycled paper
contains the substring led (inside the word recycled), so the +10 led
rule fires on top of the +20 recycled rule and the score is 80. -/
theorem c1_counterexample :
    strIncludes (toLowerStr "Recycled Paper") "led" = true ∧
    calculateGreenScore (some [("product", "Recycled Paper")]) = 80 ∧
    calculateGreenScore (some [("product", "Recycled Paper")]) ≠ 70 := by
  refine ⟨by decide, by decide, by decide⟩

/-- C1, amended: score of Recycled Paper is 80 (50 + 20 recycled + 10
because led occurs inside recycled); in the end-to-end 3-row scenario
the items score [80, 0, 60] in input order, averageScore is
round(140 / 3) = 47, the item list has length 3 and the summary is
non-empty on success. -/
theorem c1_amended_end_to_end :
    calculateGreenScore (some [("product", "Recycled Paper")]) = 80 ∧
    ∃ r, (handleUpload happyOracle e2eRequest).1 = UploadResponse.ok r ∧
      r.items.map (fun s => productOf s) =
        [some "Recycled A4 Paper", some "Disposable Plastic Cups", some "LED Light Bulbs"] ∧
      r.items.map (fun s => s.greenScore) = [80, 0, 60] ∧
      r.averageScore = 47 ∧
      r.summary ≠ "" ∧
      r.items.length = 3 := by
  refine ⟨by decide, e2eResult, rfl, by decide, by decide, ?_, by decide, by decide⟩
  show averageScoreOf e2eItems = 47
  rw [averageScoreOf_concrete e2eItems 140 3 (by decide) (by decide) (by norm_num)]
  rw [round_eq]
  rw [Int.floor_eq_iff]
  constructor
  · norm_num
  · norm_num

/-- C2, counterexample: with two low-scoring rows where only the
request for Disposable Plastic Cups rejects, the whole upload aborts
with a 500 and no storage write, even though the request for the other
row fulfills — per-row failures are not isolated. -/
theorem c2_counterexample :
    c2Oracle.alternative (some "Single-Use Plastic Straws") = some "A greener option." ∧
    c2Oracle.alternative (some "Disposable Plastic Cups") = none ∧
    calculateGreenScore (some [("product", "Single-Use Plastic Straws")]) < 40 ∧
    handleUpload c2Oracle c2Request = (UploadResponse.serverError, 0) := by
  refine ⟨by decide, by decide, by decide, by decide⟩

/-- C2, amended: the alternatives batch is all-or-nothing. Given a
fulfilled summary request, a rejecting alternative request for any
low-scoring row aborts the upload with a 500 and no storage write;
when every such request fulfills, the upload succeeds with one storage
write and each low-scoring row carries the result of its own request
while the other rows stay without a suggestion. -/
theorem c2_amended_all_or_nothing (o : Oracle) (uid : String) (f : CsvFile) (s : String)
    (hsum : o.summary ((scoreRows (parseCsv f.lines)).map productOf) = some s) :
    ((∃ x ∈ scoreRows (parseCsv f.lines), x.greenScore < 40 ∧ o.alternative (productOf x) = none) →
      handleUpload o { currentUser := some uid, file := some f } = (UploadResponse.serverError, 0)) ∧
    ((∀ x ∈ scoreRows (parseCsv f.lines), x.greenScore < 40 → (o.alternative (productOf x)).isSome) →
      handleUpload o { currentUser := some uid, file := some f } =
        (UploadResponse.ok
          { fileName := f.name
            averageScore := averageScoreOf ((scoreRows (parseCsv f.lines)).map (fun x =>
              if x.greenScore < 40 then { x with suggestion := o.alternative (productOf x) } else x))
            summary := s
            items := (scoreRows (parseCsv f.lines)).map (fun x =>
              if x.greenScore < 40 then { x with suggestion := o.alternative (productOf x) } else x) },
         1)) := by
  constructor
  · intro hex
    simp only [handleUpload]
    rw [hsum, (attachSuggestions_eq_none_iff o _).mpr hex]
  · intro hall
    simp only [handleUpload]
    rw [hsum, attachSuggestions_eq_some o _ hall]

/-- C2, witness for the amended theorem: the concrete two-low-row
scenario aborts with a 500 and no storage write. -/
theorem c2_amended_witness :
    handleUpload c2Oracle c2Request = (UploadResponse.serverError, 0) :=
  (c2_amended_all_or_nothing c2Oracle "user1" c2Csv "Summary of impact." rfl).1
    ⟨{ attrs := [("product", "Disposable Plastic Cups")], greenScore := 0, suggestion := none },
     by decide, by decide, by decide⟩

/-- C3: the code reads only the lower-cased key product, so a CSV whose
product column is headed item parses into rows keyed item, falls into
the missing-product guard and scores 0 — while the same cell under a
product header is keyword-scored to 80. This contradicts the README,
which accepts item and Item as product column names. -/
theorem c3_item_header_not_recognized :
    parseCsv [["item", "quantity"], ["Recycled A4 Paper", "100"]] =
      [[("item", "Recycled A4 Paper"), ("quantity", "100")]] ∧
    getAttr [("item", "Recycled A4 Paper"), ("quantity", "100")] "product" = none ∧
    calculateGreenScore (some [("item", "Recycled A4 Paper"), ("quantity", "100")]) = 0 ∧
    calculateGreenScore (some [("product", "Recycled A4 Paper")]) = 80 := by
  refine ⟨by decide, by decide, by decide, by decide⟩

/-- C4, counterexample: a present but zero-byte file is not rejected
with 400. An authenticated upload of an empty file proceeds through the
pipeline and succeeds with an empty item list, averageScore 0 and one
storage write. -/
theorem c4_counterexample :
    handleUpload happyOracle { currentUser := some "user1", file := some emptyCsv } =
      (UploadResponse.ok
        { fileName := "empty.csv", averageScore := 0,
          summary := "The purchases carry a mixed environmental impact.", items := [] }, 1) ∧
    (handleUpload happyOracle { currentUser := some "user1", file := some emptyCsv }).1 ≠
      UploadResponse.badRequest := by
  refine ⟨by decide, by decide⟩

/-- C4, amended: for an authenticated caller, the upload route answers
400 exactly when the file is absent, and in that case performs no
parsing, scoring, enrichment or storage access; a present file — even a
zero-byte one — is never answered with 400. -/
theorem c4_amended_badRequest_iff_file_absent (o : Oracle) (uid : String) (file : Option CsvFile) :
    ((handleUpload o { currentUser := some uid, file := file }).1 = UploadResponse.badRequest ↔
      file = none) ∧
    (file = none →
      handleUpload o { currentUser := some uid, file := file } = (UploadResponse.badRequest, 0)) := by
  cases file with
  | none => exact ⟨⟨fun _ => rfl, fun _ => rfl⟩, fun _ => rfl⟩
  | some f =>
    refine ⟨⟨fun hb => absurd hb (handleUpload_with_file_not_badRequest o uid f), ?_⟩, ?_⟩
    · intro hc; exact Option.noConfusion hc
    · intro hc; exact Option.noConfusion hc

/-- C4, witness for the amended theorem: an authenticated request with
no file is answered 400 with no storage write. -/
theorem c4_amended_witness :
    handleUpload happyOracle { currentUser := some "user1", file := none } =
      (UploadResponse.badRequest, 0) :=
  (c4_amended_badRequest_iff_file_absent happyOracle "user1" none).2 rfl

/-- C5: every score is an integer in [0, 100]; an absent row scores 0,
and a row with no product key scores 0 regardless of its other
columns. -/
theorem c5_score_in_range_and_missing_guard (item : Option Item) :
    (0 ≤ calculateGreenScore item ∧ calculateGreenScore item ≤ 100) ∧
    (item = none → calculateGreenScore item = 0) ∧
    (∀ it, item = some it → getAttr it "product" = none → calculateGreenScore item = 0) := by
  refine ⟨?_, ?_, ?_⟩
  · rcases calculateGreenScore_zero_or_clamp item with h | ⟨s, h⟩
    · rw [h]; exact ⟨le_refl 0, by norm_num⟩
    · rw [h]; exact clampBounds s
  · rintro rfl; rfl
  · rintro it rfl hget
    unfold calculateGreenScore productText
    dsimp only
    rw [hget]

/-- C5, witness: a row carrying only a quantity column is in range and
scores exactly 0. -/
theorem c5_witness :
    (0 ≤ calculateGreenScore (some [("quantity", "7")]) ∧
      calculateGreenScore (some [("quantity", "7")]) ≤ 100) ∧
    calculateGreenScore (some [("quantity", "7")]) = 0 :=
  ⟨(c5_score_in_range_and_missing_guard (some [("quantity", "7")])).1,
   (c5_score_in_range_and_missing_guard (some [("quantity", "7")])).2.2 _ rfl (by decide)⟩

/-- C6: in every successful analysis result the averageScore field
equals the rounded arithmetic mean of the greenScore values of the
returned items, and equals 0 when the item list is empty. -/
theorem c6_average_is_rounded_mean (o : Oracle) (req : UploadRequest) (r : AnalysisResult)
    (n : ℕ) (h : handleUpload o req = (UploadResponse.ok r, n)) :
    (r.items = [] → r.averageScore = 0) ∧
    (r.items ≠ [] →
      r.averageScore = round ((totalScoreOf r.items : ℚ) / (r.items.length : ℚ))) := by
  obtain ⟨f, E, hf, ha, hitems, havg, hname, hn⟩ := handleUpload_ok_inv o req r n h
  rw [hitems, havg]
  constructor
  · rintro rfl; rfl
  · intro hne
    rw [averageScoreOf, if_pos (List.length_pos.mpr hne)]

/-- C6, witness: the end-to-end scenario result has non-empty items and
its averageScore is the rounded mean of its item scores. -/
theorem c6_witness :
    e2eResult.averageScore =
      round ((totalScoreOf e2eResult.items : ℚ) / (e2eResult.items.length : ℚ)) :=
  (c6_average_is_rounded_mean happyOracle e2eRequest e2eResult 1 rfl).2 (by decide)

/-- C7: in every successful analysis result, an item whose greenScore
is at least 40 has no suggestion populated; suggestions are attached
only below the threshold. -/
theorem c7_no_suggestion_at_or_above_threshold (o : Oracle) (req : UploadRequest)
    (r : AnalysisResult) (n : ℕ) (h : handleUpload o req = (UploadResponse.ok r, n)) :
    ∀ x ∈ r.items, 40 ≤ x.greenScore → x.suggestion = none := by
  obtain ⟨f, E, hf, ha, hitems, havg, hname, hn⟩ := handleUpload_ok_inv o req r n h
  intro x hx hge
  rw [hitems] at hx
  exact scoreRows_suggestion_none _ x (attachSuggestions_mem_high o _ E ha x hx hge)

/-- C7, witness: the LED row of the end-to-end result scores 60 and
carries no suggestion. -/
theorem c7_witness :
    (ledRow ∈ e2eResult.items ∧ 40 ≤ ledRow.greenScore) ∧ ledRow.suggestion = none :=
  ⟨⟨by decide, by decide⟩,
   c7_no_suggestion_at_or_above_threshold happyOracle e2eRequest e2eResult 1 rfl
     ledRow (by decide) (by decide)⟩

/-- C8: an upload or history request without a verified caller identity
is answered 401 and performs zero storage reads and writes and no
downstream processing. -/
theorem c8_unauthorized_no_storage (o : Oracle) (f : Option CsvFile) (db : List StoredRecord) :
    handleUpload o { currentUser := none, file := f } = (UploadResponse.unauthorized, 0) ∧
    handleHistory db none = (HistoryResponse.unauthorized, 0) :=
  ⟨rfl, rfl⟩

/-- C9: for every authenticated caller the history route answers, with
one storage read, exactly the records owned by the caller (a
permutation of the ownership filter), in non-increasing createdAt
order; a caller with no records gets the empty list, not an error. -/
theorem c9_history_owned_sorted (db : List StoredRecord) (uid : String) :
    ∃ out, handleHistory db (some uid) = (HistoryResponse.ok out, 1) ∧
      out.Perm (db.filter (fun r => r.userId == uid)) ∧
      List.Pairwise (fun a b => b.createdAt ≤ a.createdAt) out ∧
      ((∀ r ∈ db, r.userId ≠ uid) → out = []) := by
  refine ⟨queryByOwner db uid, rfl, List.perm_insertionSort _ _, ?_, ?_⟩
  · exact List.sorted_insertionSort newerFirst _
  · intro hnone
    have hf : db.filter (fun r => r.userId == uid) = [] := by
      rw [List.filter_eq_nil_iff]
      intro a ha
      simpa using hnone a ha
    rw [queryByOwner, hf]
    rfl

/-- C9, witness: a caller owning none of the stored records receives
the empty list with one storage read. -/
theorem c9_witness : handleHistory sampleDb (some "bob") = (HistoryResponse.ok [], 1) := by
  obtain ⟨out, h1, _, _, h4⟩ := c9_history_owned_sorted sampleDb "bob"
  rw [h4 (by decide)] at h1
  exact h1

/-- C10: the score depends only on the product value. Two rows whose
product attributes hold the same string score identically, whatever
their other columns. -/
theorem c10_score_depends_only_on_product (a b : Item) (p : String)
    (ha : getAttr a "product" = some p) (hb : getAttr b "product" = some p) :
    calculateGreenScore (some a) = calculateGreenScore (some b) := by
  unfold calculateGreenScore productText
  dsimp only
  rw [ha, hb]

/-- C10, witness: two rows sharing the product Organic Tea but
differing in every other column score identically. -/
theorem c10_witness :
    calculateGreenScore (some [("product", "Organic Tea"), ("qty", "1")]) =
      calculateGreenScore (some [("color", "red"), ("product", "Organic Tea")]) :=
  c10_score_depends_only_on_product _ _ "Organic Tea" (by decide) (by decide)

end GreenTech
